import Mathlib

/-!
Verification of the tvmux ingestion pipeline (normalize, probe, filter, cache-write)
against its natural-language specification. Definitions are shallow embeddings of the
JavaScript source under `api/`.
-/

namespace TVMux

/-- Truthiness of an optional JS string field: `undefined`, `null` and `""` are falsy. -/
def strTruthy : Option String → Bool
  | none => false
  | some s => s != ""

/-- JS `a || b` for an optional string `a` and a string default `b`. -/
def jsOr (a : Option String) (b : String) : String :=
  match a with
  | some s => if s = "" then b else s
  | none => b

/-- JS `a || null` for an optional string: a falsy value collapses to `null`. -/
def jsOrNull : Option String → Option String
  | some s => if s = "" then none else some s
  | none => none

/-- One playable endpoint as carried through the pipeline; absent fields are `none`.
`health` is written by the prober (`"verified"`, `"unverified"` or `"failed"`). -/
structure Stream where
  url : Option String := none
  referrer : Option String := none
  user_agent : Option String := none
  quality : Option String := none
  health : Option String := none
deriving Repr, DecidableEq

/-- The enriched country object attached to a channel (`channel.country`), whose
`name` field may itself be absent. -/
structure CountryInfo where
  name : Option String := none
deriving Repr, DecidableEq

/-- A raw channel record as handed to `normalizeChannel`: the union of the fields the
function reads on the iptv-org path and on the M3U path. -/
structure RawChannel where
  name : Option String := none
  tvgName : Option String := none
  tvgLogo : Option String := none
  logo : Option String := none
  nativeId : Option String := none
  country : Option CountryInfo := none
  categories : Option (List String) := none
  groupTitle : Option String := none
  url : Option String := none
  httpReferrer : Option String := none
  httpUserAgent : Option String := none
  streams : Option (List Stream) := none
deriving Repr, DecidableEq

/-- The normalized channel shape produced by `normalizeChannel`. -/
structure Channel where
  id : String
  name : String
  logo : String
  source : String
  country : Option CountryInfo := none
  categories : List String := []
  streams : List Stream := []
deriving Repr, DecidableEq

/-- The character step of `sourceName.toLowerCase().replace(/\s/g, "-")`, applied character by character
(lower-casing never produces or removes whitespace, so the two passes commute). -/
def slugChar (c : Char) : Char := if c.isWhitespace then '-' else c.toLower

/-- The slug of a source name used as the id namespace. -/
def slug (s : String) : String := String.mk (s.data.map slugChar)

/-- The fixed placeholder logo URL (`DEFAULT_LOGO` in both data-processor variants). -/
def DEFAULT_LOGO : String :=
  "https://raw.githubusercontent.com/Stremio/stremio-dls/master/dist/logo-big.png"

/-- Function `normalizeChannel` from `api/lib/data-processor.js` (the variant whose id is
`slug(sourceName) ++ "_" ++ (channel.id || index)` with no extra tag). `index` is the
stringified positional index (or, on the iptv-org call path, the native channel id,
which the caller passes in the index position). -/
def normalizeChannel (channel : RawChannel) (sourceName : String) (index : String) :
    Channel :=
  let name := jsOr channel.name (jsOr channel.tvgName "Unnamed Channel")
  let logo := jsOr channel.tvgLogo (jsOr channel.logo DEFAULT_LOGO)
  let streams :=
    match channel.streams with
    | some ss => ss
    | none => [{ url := channel.url,
                 referrer := jsOrNull channel.httpReferrer,
                 user_agent := jsOrNull channel.httpUserAgent }]
  { id := slug sourceName ++ "_" ++ jsOr channel.nativeId index
    name := name
    logo := logo
    source := sourceName
    country := channel.country
    categories :=
      match channel.categories with
      | some cs => cs
      | none => [jsOr channel.groupTitle "General"]
    streams := streams.filter (fun s => strTruthy s.url) }

/-- Function `normalizeChannel` from `api/_lib/data-processor.js`: byte-for-byte the same body
except that the id template carries a fixed `tvmux_` tag in front. -/
def normalizeChannelTagged (channel : RawChannel) (sourceName : String) (index : String) :
    Channel :=
  let name := jsOr channel.name (jsOr channel.tvgName "Unnamed Channel")
  let logo := jsOr channel.tvgLogo (jsOr channel.logo DEFAULT_LOGO)
  let streams :=
    match channel.streams with
    | some ss => ss
    | none => [{ url := channel.url,
                 referrer := jsOrNull channel.httpReferrer,
                 user_agent := jsOrNull channel.httpUserAgent }]
  { id := "tvmux_" ++ slug sourceName ++ "_" ++ jsOr channel.nativeId index
    name := name
    logo := logo
    source := sourceName
    country := channel.country
    categories :=
      match channel.categories with
      | some cs => cs
      | none => [jsOr channel.groupTitle "General"]
    streams := streams.filter (fun s => strTruthy s.url) }

/-! ### Stream health probing (`api/_lib/data-processor.js`) -/

/-- The network-level outcome of one HEAD request: either the server answered with an
HTTP status, or the request timed out / the connection failed. -/
inductive ProbeOutcome
  | response (status : Nat)
  | netError
deriving Repr, DecidableEq

/-- The `httpClient` export (`api/_lib/httpClient.js`): an axios instance whose `validateStatus`
accepts only statuses in `[200,300)`; any other delivered status, and any network
failure, surfaces to the caller as a thrown error. -/
def httpClientHead : ProbeOutcome → Except Unit Nat
  | .response status => if 200 ≤ status ∧ status < 300 then .ok status else .error ()
  | .netError => .error ()

/-- The per-stream try/catch body of `probeStreamHealth`: a delivered response with
status in `[200,400)` gives `"verified"`, any other delivered response gives
`"unverified"`, and a thrown error is caught and gives `"failed"`. Total by
construction: no probe failure escapes as an exception. -/
def probeHealthVerdict (o : ProbeOutcome) : String :=
  match httpClientHead o with
  | .ok status => if 200 ≤ status ∧ status < 400 then "verified" else "unverified"
  | .error _ => "failed"

/-- The object `probeStreamHealth` builds for each stream: a SPREAD COPY of the stream
together with the channel name. The copy is a fresh object; writing to it does not
write to the stream held by the channel. -/
structure ProbeStream where
  toStream : Stream
  channelName : String
deriving Repr, DecidableEq

/-- The flattening step of `probeStreamHealth`: every stream of every channel, each
spread into a fresh `ProbeStream` copy. -/
def flattenStreamCopies (masterChannelList : List Channel) : List ProbeStream :=
  masterChannelList.flatMap fun channel =>
    channel.streams.map fun stream => { toStream := stream, channelName := channel.name }

/-- The slice `shuffled.slice(0, Math.min(sampleSize, shuffled.length))`. The random shuffle is
modelled by an explicit permutation `shuffled` of the flattened copy list. -/
def sampleOf (shuffled : List ProbeStream) (sampleSize : Nat) : List ProbeStream :=
  shuffled.take (min sampleSize shuffled.length)

/-- Function `probeStreamHealth` (`api/_lib/data-processor.js`, the only prober whose body is in
the sources). The JS takes a random sample of at most `sampleSize` (the pipeline uses
the default, 50) of the flattened copies, HEAD-probes each, writes the verdict onto the
sampled COPY, and returns nothing. The embedding returns the annotated sample together
with the master list as the caller observes it afterwards: since each annotation lands
on a spread copy, the channels come back exactly as given. -/
def probeStreamHealth (masterChannelList : List Channel) (shuffled : List ProbeStream)
    (outcome : ProbeStream → ProbeOutcome) (sampleSize : Nat) :
    List ProbeStream × List Channel :=
  let sample := sampleOf shuffled sampleSize
  (sample.map fun s =>
      { s with toStream := { s.toStream with health := some (probeHealthVerdict (outcome s)) } },
   masterChannelList)

/-! ### Cache (`api/_lib/cache.js`) -/

def MASTER_CHANNEL_LIST_KEY : String := "master_channel_list"

def AVAILABLE_CATALOGS_KEY : String := "available_catalogs"

/-- A value held in the KV store by this pipeline. -/
inductive CacheValue
  | channelList (cs : List Channel)
  | nameList (ns : List String)
  | oneChannel (c : Channel)
deriving Repr, DecidableEq

/-- One stored entry: the value plus the expiration (seconds) attached by the write
that produced it, `none` meaning the key was written with no expiration. -/
structure CacheEntry where
  value : CacheValue
  ex : Option Nat
deriving Repr, DecidableEq

/-- The KV store state. -/
def CacheState := String → Option CacheEntry

/-- Function `setInCache`: `kv.set` with the spread of the default ex 86400 and the options — the
caller's `ex` option, when given, overrides the 24-hour default. `ok` injects whether
the underlying write succeeds; a failing write mutates nothing and the error is
re-thrown to the caller. -/
def setInCache (ok : String → Bool) (st : CacheState) (key : String) (value : CacheValue)
    (exOpt : Option Nat) : Except Unit CacheState :=
  if ok key then
    .ok fun k => if k = key then some ⟨value, some (exOpt.getD 86400)⟩ else st k
  else .error ()

/-- Function `setMultipleInCache`: a no-op on an empty map, otherwise one `kv.mset` writing
every key WITHOUT any expiration; on failure nothing is written and the error is
re-thrown. -/
def setMultipleInCache (ok : String → Bool) (st : CacheState)
    (items : List (String × CacheValue)) : Except Unit CacheState :=
  if items.isEmpty then .ok st
  else if items.all (fun p => ok p.1) then
    .ok (items.foldl (fun s p => fun k => if k = p.1 then some ⟨p.2, none⟩ else s k) st)
  else .error ()

/-- One pending write (key and full entry); used to model the write batches the
handlers issue through `Promise.all`. -/
abbrev WriteOp := String × CacheEntry

/-- Apply one write: when the underlying `kv.set` for this key succeeds the key is
updated, otherwise the state is untouched (each write is independent). -/
def applyWrite (ok : String → Bool) (st : CacheState) (w : WriteOp) : CacheState :=
  if ok w.1 then (fun k => if k = w.1 then some w.2 else st k) else st

/-- Apply a batch of independent writes in issue order. -/
def applyWrites (ok : String → Bool) (st : CacheState) (ws : List WriteOp) : CacheState :=
  ws.foldl (applyWrite ok) st

/-! ### Source aggregation (`api/refresh-data.js`, shared by all variants) -/

/-- The settled result of one source fetcher: the source's display name and either its
channel list (fulfilled) or an error message (rejected). In a run, the head of the
list is always the iptv-org source. -/
structure SourceResult where
  name : String
  result : Except String (List Channel)

/-- The aggregation loop: push the channels of every fulfilled source, in order. -/
def aggregateChannels (results : List SourceResult) : List Channel :=
  results.flatMap fun r => match r.result with | .ok cs => cs | .error _ => []

/-- One `sendAlertToWebhook(sourceName, reason)` is fired per rejected source. -/
def failedSourceAlerts (results : List SourceResult) : List String :=
  results.filterMap fun r => match r.result with | .ok _ => none | .error _ => some r.name

/-- The `availableCatalogs` set after aggregation: the (truthy) country names of the
fulfilled iptv-org channels (head result), then the name of every fulfilled custom
source. The JS `Set` is modelled as a duplicate-free list; `List.dedup` keeps the
last occurrence where the `Set` keeps the first, which is irrelevant once sorted. -/
def availableCatalogs (results : List SourceResult) : List String :=
  let countryNames :=
    match results.head? with
    | some r =>
      match r.result with
      | .ok cs => cs.filterMap fun c =>
          match c.country with
          | some ci => match ci.name with
            | some n => if n = "" then none else some n
            | none => none
          | none => none
      | .error _ => []
    | none => []
  let customNames := (results.drop 1).filterMap fun r =>
    match r.result with | .ok _ => some r.name | .error _ => none
  (countryNames ++ customNames).dedup

/-- Code-unit comparison of two char lists, strict. -/
def strLtChars : List Char → List Char → Bool
  | [], [] => false
  | [], _ :: _ => true
  | _ :: _, [] => false
  | a :: as, b :: bs => if a = b then strLtChars as bs else decide (a.val < b.val)

/-- Comparison `a <= b` in the sense of the default JS `Array.prototype.sort()` comparator
(lexicographic over code units). -/
def strLe (a b : String) : Bool := !(strLtChars b.data a.data)

/-- Insert into a sorted list, keeping `strLe` order. -/
def insertSorted (a : String) : List String → List String
  | [] => [a]
  | b :: bs => if strLe a b then a :: b :: bs else b :: insertSorted a bs

/-- Sorting `Array.from(availableCatalogs).sort()`: sort lexicographically by code units. -/
def sortStrings (l : List String) : List String := l.foldr insertSorted []

/-- The run outcome visible to the scheduler plus the cache state it leaves behind. -/
structure RunResult where
  status : String
  alerts : List String
  cache : CacheState

/-- One run's raw normalization input: each source's name with its entries, each entry
paired with the (stringified) index argument the caller passes to `normalizeChannel`. -/
abbrev RawRun := List (String × List (RawChannel × String))

/-- A one-stream iptv-org channel, used as a concrete input in witnesses and
counterexamples. -/
def demoChannel : Channel :=
  { id := "iptv-org_1", name := "C", logo := "l", source := "iptv-org",
    country := some { name := some "US" }, streams := [{ url := some "u" }] }

/-- A one-stream custom-source channel, used as a concrete input. -/
def demoCustomChannel : Channel :=
  { id := "mylist_0", name := "M", logo := "l", source := "My List",
    streams := [{ url := some "u" }] }

/-- A channel with 51 streams (urls "0" … "50"), one more than the probe sample
size; a concrete input. -/
def wideChannel : Channel :=
  { id := "iptv-org_2", name := "N", logo := "l", source := "iptv-org",
    streams := (List.range 51).map fun i => { url := some (toString i) } }

/-- A one-source settled-result list (the iptv-org fetcher fulfilled with
`demoChannel`); a concrete input. -/
def demoResults : List SourceResult := [⟨"iptv-org", Except.ok [demoChannel]⟩]

/-- A raw run on which the id scheme collides across sources; a concrete input. -/
def collidingRun : RawRun :=
  [("a", [({ nativeId := some "b_0" }, "0")]), ("a_b", [({ }, "0")])]

/-- The ids of the aggregated normalized channels of a run. -/
def runIds (run : RawRun) : List String :=
  run.flatMap fun src => src.2.map fun e => (normalizeChannel e.1 src.1 e.2).id

/-! ### The refresh handler, first variant (`api/refresh-data.js` lines 21-200):
probe (sampling, no filtering), then two sequential awaited `setInCache` calls. -/

/-- Variant 1 of the refresh handler, from the settled source results onward. The probe
is invoked when the aggregate is non-empty but, annotating spread copies, hands the
master list back unchanged; the master list and the sorted catalog names are then
written sequentially. A failed write leaves its own key untouched, but a key already
written stays written. -/
def v1Handler (results : List SourceResult) (shuffled : List ProbeStream)
    (outcome : ProbeStream → ProbeOutcome) (ok : String → Bool) (st : CacheState) :
    RunResult :=
  let masterChannelList := aggregateChannels results
  let srcAlerts := failedSourceAlerts results
  let masterChannelList :=
    if masterChannelList.isEmpty then masterChannelList
    else (probeStreamHealth masterChannelList shuffled outcome 50).2
  if masterChannelList.isEmpty then
    { status := "Failed", alerts := srcAlerts ++ ["Cache Worker"], cache := st }
  else
    let sortedCatalogs := sortStrings (availableCatalogs results)
    match setInCache ok st MASTER_CHANNEL_LIST_KEY (.channelList masterChannelList) none with
    | .error _ => { status := "Failed", alerts := srcAlerts ++ ["Cache Writer"], cache := st }
    | .ok st1 =>
      match setInCache ok st1 AVAILABLE_CATALOGS_KEY (.nameList sortedCatalogs) none with
      | .error _ => { status := "Failed", alerts := srcAlerts ++ ["Cache Writer"], cache := st1 }
      | .ok st2 => { status := "Success", alerts := srcAlerts, cache := st2 }

/-! ### The refresh handler, second variant (`api/refresh-data.js` lines 201-372):
per-catalog cache entries, master list still unfiltered, catalog index written as the
full sorted catalog list. -/

/-- The catalog key of a channel in variant 2:
`availableCatalogs.has(channel.source) ? channel.source : channel.country?.name`. -/
def v2CatalogNameOf (catalogs : List String) (c : Channel) : Option String :=
  if c.source ∈ catalogs then some c.source
  else match c.country with
    | some ci => ci.name
    | none => none

/-- The `channelsByCatalog` object of variant 2: an entry (initially empty) for every sorted
catalog name; each channel is appended to its catalog when its catalog name is truthy
and is one of the initialized keys. -/
def v2ChannelsByCatalog (catalogs : List String) (master : List Channel) :
    List (String × List Channel) :=
  master.foldl
    (fun acc c =>
      match v2CatalogNameOf catalogs c with
      | some n =>
        if n = "" then acc
        else acc.map fun p => if p.1 = n then (p.1, p.2 ++ [c]) else p
      | none => acc)
    (catalogs.map fun n => (n, []))

/-- The per-catalog writes of variant 2: one `catalog_` key per NON-empty catalog. -/
def v2CatalogWrites (byCatalog : List (String × List Channel)) : List WriteOp :=
  byCatalog.filterMap fun p =>
    if p.2.isEmpty then none
    else some ("catalog_" ++ p.1, (⟨.channelList p.2, some 86400⟩ : CacheEntry))

/-- The full write batch of variant 2: per-catalog entries for the non-empty
catalogs, the master list, and the catalog index holding the FULL sorted catalog
list (not restricted to non-empty catalogs). -/
def v2Writes (results : List SourceResult) (master : List Channel) : List WriteOp :=
  v2CatalogWrites (v2ChannelsByCatalog (sortStrings (availableCatalogs results)) master)
  ++ [(MASTER_CHANNEL_LIST_KEY, (⟨.channelList master, some 86400⟩ : CacheEntry)),
      (AVAILABLE_CATALOGS_KEY,
        (⟨.nameList (sortStrings (availableCatalogs results)), some 86400⟩ : CacheEntry))]

/-- Variant 2 of the refresh handler, from the settled source results onward. All
writes are issued together and awaited with `Promise.all`: each write succeeds or
fails on its own, and the run succeeds only if all of them succeed. -/
def v2Handler (results : List SourceResult) (shuffled : List ProbeStream)
    (outcome : ProbeStream → ProbeOutcome) (ok : String → Bool) (st : CacheState) :
    RunResult :=
  let masterChannelList := aggregateChannels results
  let srcAlerts := failedSourceAlerts results
  let masterChannelList :=
    if masterChannelList.isEmpty then masterChannelList
    else (probeStreamHealth masterChannelList shuffled outcome 50).2
  if masterChannelList.isEmpty then
    { status := "Failed", alerts := srcAlerts ++ ["Cache Worker"], cache := st }
  else
    let writes := v2Writes results masterChannelList
    if writes.all (fun w => ok w.1) then
      { status := "Success", alerts := srcAlerts, cache := applyWrites ok st writes }
    else
      { status := "Failed", alerts := srcAlerts ++ ["Cache Writer"],
        cache := applyWrites ok st writes }

/-! ### The refresh handler, third variant (`api/refresh-data.js` lines 373-519):
probe-and-filter, batched per-channel writes, index restricted to non-empty catalogs.
The body of `probeAndFilterStreamHealth` does not appear anywhere in the sources (the
file only imports and calls it), so it is modelled from the specification. -/

/-- Modelled from the spec: the probe classification of section 4.3 step 4 — HTTP
status in `[200,400)` gives `verified`; any other status, timeout, or connection
error gives `failed`. (This is the spec's wording; the prober that IS in the sources
composes with the 2xx-only `httpClient` instead, see `probeHealthVerdict`.) -/
def specClassify (o : ProbeOutcome) : String :=
  match o with
  | .response status => if 200 ≤ status ∧ status < 400 then "verified" else "failed"
  | .netError => "failed"

/-- Modelled from the spec: `probeAndFilterStreamHealth` (section 4.3), whose body is
absent from the sources — `api/refresh-data.js` (third variant) imports and calls it.
Every stream of every channel is probed exactly once (the sequential fixed-size
batches jointly cover the flattened list), its verdict written in place; then a
channel is retained iff at least one of its streams is `verified`, all others being
dropped from the returned list. `outcome` gives the network outcome per stream. -/
def probeAndFilterStreamHealth (channels : List Channel) (outcome : Stream → ProbeOutcome) :
    List Channel :=
  let annotated := channels.map fun c =>
    { c with streams := c.streams.map fun s =>
        { s with health := some (specClassify (outcome s)) } }
  annotated.filter fun c => c.streams.any fun s => s.health == some "verified"

/-- The catalog key of a channel in variant 3:
`channel.source === "iptv-org" ? channel.country?.name : channel.source`. -/
def v3CatalogNameOf (c : Channel) : Option String :=
  if c.source = "iptv-org" then
    match c.country with
    | some ci => ci.name
    | none => none
  else some c.source

/-- The `channelsByCatalog` object of variant 3: keys are created on demand, so every entry is
non-empty by construction; a channel with a falsy catalog name joins no catalog. -/
def v3ChannelsByCatalog (master : List Channel) : List (String × List Channel) :=
  master.foldl
    (fun acc c =>
      match v3CatalogNameOf c with
      | some n =>
        if n = "" then acc
        else if acc.any (fun p => p.1 = n) then
          acc.map fun p => if p.1 = n then (p.1, p.2 ++ [c]) else p
        else acc ++ [(n, [c])]
      | none => acc)
    []

/-- The `individualChannelsToCache` map of variant 3: one `channel_` key per published
channel, handed to `setMultipleInCache`. -/
def v3ChannelItems (master : List Channel) : List (String × CacheValue) :=
  master.map fun c => ("channel_" ++ c.id, CacheValue.oneChannel c)

/-- The catalog-index value of variant 3: the sorted catalog names restricted to the
names owning at least one published channel. -/
def v3IndexNames (results : List SourceResult) (master : List Channel) : List String :=
  (sortStrings (availableCatalogs results)).filter fun n =>
    (v3ChannelsByCatalog master).any fun p => p.1 = n

/-- The individual (non-batched) writes of variant 3: the per-catalog entries, the
master list and the restricted catalog index, each with the default expiration. -/
def v3IndividualWrites (results : List SourceResult) (master : List Channel) :
    List WriteOp :=
  ((v3ChannelsByCatalog master).map fun p =>
    ("catalog_" ++ p.1, (⟨.channelList p.2, some 86400⟩ : CacheEntry)))
  ++ [(MASTER_CHANNEL_LIST_KEY, (⟨.channelList master, some 86400⟩ : CacheEntry)),
      (AVAILABLE_CATALOGS_KEY,
        (⟨.nameList (v3IndexNames results master), some 86400⟩ : CacheEntry))]

/-- Variant 3 of the refresh handler, from the settled source results onward. The
aggregate goes through `probeAndFilterStreamHealth`; the filtered list is written as
one batched multi-key set of `channel_` entries (no expiration, all-or-nothing), plus
the individual writes (default 24-hour expiration), all awaited with `Promise.all`;
the run succeeds only if every write succeeds. -/
def v3Handler (results : List SourceResult) (outcome : Stream → ProbeOutcome)
    (ok : String → Bool) (st : CacheState) : RunResult :=
  let aggregated := aggregateChannels results
  let srcAlerts := failedSourceAlerts results
  let masterChannelList := probeAndFilterStreamHealth aggregated outcome
  if masterChannelList.isEmpty then
    { status := "Failed", alerts := srcAlerts ++ ["Cache Worker"], cache := st }
  else
    let channelItems := v3ChannelItems masterChannelList
    let individualWrites := v3IndividualWrites results masterChannelList
    let msetOk := channelItems.isEmpty || channelItems.all fun p => ok p.1
    let stA :=
      if msetOk then
        applyWrites (fun _ => true) st
          (channelItems.map fun p => (p.1, (⟨p.2, none⟩ : CacheEntry)))
      else st
    let stB := applyWrites ok stA individualWrites
    if msetOk && individualWrites.all (fun w => ok w.1) then
      { status := "Success", alerts := srcAlerts, cache := stB }
    else
      { status := "Failed", alerts := srcAlerts ++ ["Cache Writer"], cache := stB }

/-! ## Helper lemmas -/

theorem jsOr_of_falsy {a : Option String} {b : String} (h : strTruthy a = false) :
    jsOr a b = b := by
  cases a with
  | none => rfl
  | some s =>
    simp only [strTruthy, bne_iff_ne, ne_eq, decide_not] at h
    simp only [jsOr, if_pos (by simpa using h)]

/-! ### C4: probe classification of the prober that is in the sources -/

/-- C4 counterexample: the status 300 lies in `[200,400)`, yet the probe classifies it
`"failed"`, not `"verified"`: the hardened HTTP client only delivers 2xx responses and
raises on everything else, so the prober's own `[200,400)` test never sees a 3xx. -/
theorem C4_counterexample :
    200 ≤ 300 ∧ 300 < 400
    ∧ probeHealthVerdict (.response 300) = "failed"
    ∧ probeHealthVerdict (.response 300) ≠ "verified" := by decide

/-- C4 (amended): a delivered 2xx status gives `"verified"`; every status outside
`[200,300)` (rejected by the HTTP client's `validateStatus`), and every timeout or
connection error, gives `"failed"`; the verdict function is total with range
contained in the two verdicts, so no probe failure ever escapes the prober. -/
theorem C4_classification :
    (∀ s : Nat, 200 ≤ s → s < 300 → probeHealthVerdict (.response s) = "verified")
    ∧ (∀ s : Nat, s < 200 ∨ 300 ≤ s → probeHealthVerdict (.response s) = "failed")
    ∧ probeHealthVerdict .netError = "failed"
    ∧ (∀ o, probeHealthVerdict o = "verified" ∨ probeHealthVerdict o = "failed") := by
  refine ⟨?_, ?_, rfl, ?_⟩
  · intro s h1 h2
    have hx : httpClientHead (.response s) = .ok s := by
      simp [httpClientHead, h1, h2]
    have h4 : s < 400 := by omega
    simp [probeHealthVerdict, hx, h1, h4]
  · intro s h
    have hx : httpClientHead (.response s) = .error () := by
      simp only [httpClientHead, ite_eq_right_iff]
      intro hc
      omega
    simp [probeHealthVerdict, hx]
  · intro o
    cases o with
    | response s =>
      by_cases hc : 200 ≤ s ∧ s < 300
      · left
        have hx : httpClientHead (.response s) = .ok s := by
          simp [httpClientHead, hc]
        have h4 : s < 400 := by omega
        simp [probeHealthVerdict, hx, hc.1, h4]
      · right
        have hx : httpClientHead (.response s) = .error () := by
          simp only [httpClientHead, ite_eq_right_iff]
          intro h
          exact absurd h hc
        simp [probeHealthVerdict, hx]
    | netError => right; rfl

/-- C4 witness: the amended classification evaluated at 200 (verified), at 500 and at
a network error (both failed). -/
theorem C4_witness :
    probeHealthVerdict (.response 200) = "verified"
    ∧ probeHealthVerdict (.response 500) = "failed"
    ∧ probeHealthVerdict .netError = "failed" :=
  ⟨C4_classification.1 200 (by decide) (by decide),
   C4_classification.2.1 500 (Or.inr (by decide)),
   C4_classification.2.2.1⟩

/-! ### C5: the prober annotates spread copies, not the channels' stream objects -/

/-- C5 (code bug): `probeStreamHealth`'s own doc comment says it "modifies the master
list directly by adding a health property", and the spec says stream objects are
referenced, not copied; but the flattened working list holds SPREAD COPIES, so the
verdict written during probing is invisible through the original channel. Probing a
one-stream channel whose probe succeeds leaves the sampled copy `"verified"` while the
channel's own stream still carries no health at all. -/
theorem C5_copied_streams :
    ((probeStreamHealth [demoChannel] (flattenStreamCopies [demoChannel])
        (fun _ => .response 200) 50).1.map fun s => s.toStream.health)
      = [some "verified"]
    ∧ (probeStreamHealth [demoChannel] (flattenStreamCopies [demoChannel])
        (fun _ => .response 200) 50).2 = [demoChannel]
    ∧ (((probeStreamHealth [demoChannel] (flattenStreamCopies [demoChannel])
          (fun _ => .response 200) 50).2.flatMap fun c => c.streams).map fun s => s.health)
      = [none] := by decide

/-! ### C9: normalize defaults -/

/-- C9 counterexample: a raw entry that carries `categories: []` — the empty array is
truthy in JS, so it is passed through unchanged and the normalized channel has ZERO
categories, refuting "the categories list always has at least one entry". -/
theorem C9_counterexample :
    (normalizeChannelTagged { categories := some [] } "iptv-org" "7").categories = []
    ∧ (normalizeChannel { categories := some [] } "My List" "7").categories = [] := by
  decide

/-- C9 (amended): the normalize defaults — a falsy `name` (plain and tvg) gives
`"Unnamed Channel"`; a falsy logo (tvg and plain) gives the fixed placeholder; an
ABSENT `categories` field defaults to the one-element list `[group title || "General"]`,
while a present list — the empty list included — is passed through unchanged (so the
result can be empty); and every retained stream has a truthy (non-empty) url. Stated
for both normalize variants, which agree on all of these fields. -/
theorem C9_normalize_defaults (channel : RawChannel) (sourceName index : String) :
    let c := normalizeChannelTagged channel sourceName index
    let c' := normalizeChannel channel sourceName index
    (strTruthy channel.name = false → strTruthy channel.tvgName = false →
      c.name = "Unnamed Channel" ∧ c'.name = "Unnamed Channel")
    ∧ (strTruthy channel.tvgLogo = false → strTruthy channel.logo = false →
      c.logo = DEFAULT_LOGO ∧ c'.logo = DEFAULT_LOGO)
    ∧ (channel.categories = none →
      c.categories = [jsOr channel.groupTitle "General"] ∧ c.categories.length = 1
      ∧ c'.categories = c.categories)
    ∧ (∀ cats, channel.categories = some cats → c.categories = cats ∧ c'.categories = cats)
    ∧ (∀ s ∈ c.streams, strTruthy s.url = true)
    ∧ c'.streams = c.streams := by
  refine ⟨?_, ?_, ?_, ?_, ?_, rfl⟩
  · intro h1 h2
    constructor <;>
      simp [normalizeChannelTagged, normalizeChannel, jsOr_of_falsy h1, jsOr_of_falsy h2]
  · intro h1 h2
    constructor <;>
      simp [normalizeChannelTagged, normalizeChannel, jsOr_of_falsy h1, jsOr_of_falsy h2]
  · intro h
    refine ⟨?_, ?_, ?_⟩ <;> simp [normalizeChannelTagged, normalizeChannel, h]
  · intro cats h
    constructor <;> simp [normalizeChannelTagged, normalizeChannel, h]
  · intro s hs
    have : s ∈ List.filter (fun s => strTruthy s.url)
        (match channel.streams with
          | some ss => ss
          | none => [{ url := channel.url, referrer := jsOrNull channel.httpReferrer,
                       user_agent := jsOrNull channel.httpUserAgent }]) := hs
    exact (List.mem_filter.mp this).2

/-- C9 witness: the amended defaults evaluated on a bare M3U-style entry carrying only
a url. -/
theorem C9_witness :
    (normalizeChannelTagged { url := some "http://x" } "Src Name" "0").name
        = "Unnamed Channel"
    ∧ (normalizeChannelTagged { url := some "http://x" } "Src Name" "0").logo
        = DEFAULT_LOGO
    ∧ (normalizeChannelTagged { url := some "http://x" } "Src Name" "0").categories
        = [jsOr none "General"]
    ∧ ∀ s ∈ (normalizeChannelTagged { url := some "http://x" } "Src Name" "0").streams,
        strTruthy s.url = true := by
  have h := C9_normalize_defaults { url := some "http://x" } "Src Name" "0"
  exact ⟨(h.1 rfl rfl).1, (h.2.1 rfl rfl).1, (h.2.2.1 rfl).1, h.2.2.2.2.1⟩

/-! ### C2: id uniqueness -/

theorem string_ext {a b : String} (h : a.data = b.data) : a = b := by
  cases a; cases b; exact congrArg String.mk h

theorem data_append_sep (a b : String) :
    (a ++ "_" ++ b).data = a.data ++ '_' :: b.data := by
  rw [String.data_append, String.data_append]
  show a.data ++ ['_'] ++ b.data = _
  simp

/-- Splitting a char list at the separator is unambiguous when neither candidate head
contains the separator. -/
theorem underscore_split {p₁ p₂ k₁ k₂ : List Char}
    (h₁ : '_' ∉ p₁) (h₂ : '_' ∉ p₂)
    (h : p₁ ++ '_' :: k₁ = p₂ ++ '_' :: k₂) : p₁ = p₂ ∧ k₁ = k₂ := by
  induction p₁ generalizing p₂ with
  | nil =>
    cases p₂ with
    | nil => simpa using h
    | cons b t =>
      simp only [List.nil_append, List.cons_append, List.cons.injEq] at h
      exact absurd (h.1 ▸ List.mem_cons_self b t) h₂
  | cons a t ih =>
    cases p₂ with
    | nil =>
      simp only [List.nil_append, List.cons_append, List.cons.injEq] at h
      exact absurd (h.1 ▸ List.mem_cons_self a t) h₁
    | cons b t₂ =>
      simp only [List.cons_append, List.cons.injEq] at h
      obtain ⟨hab, ht⟩ := h
      have hr := ih (fun hm => h₁ (List.mem_cons_of_mem _ hm))
        (fun hm => h₂ (List.mem_cons_of_mem _ hm)) ht
      exact ⟨by rw [hab, hr.1], hr.2⟩

/-- Two slug-underscore-key ids coincide only when both parts coincide, provided the
slugs are underscore-free. -/
theorem id_parts_eq {p₁ p₂ k₁ k₂ : String}
    (h₁ : '_' ∉ p₁.data) (h₂ : '_' ∉ p₂.data)
    (h : p₁ ++ "_" ++ k₁ = p₂ ++ "_" ++ k₂) : p₁ = p₂ ∧ k₁ = k₂ := by
  have hd := congrArg String.data h
  rw [data_append_sep, data_append_sep] at hd
  obtain ⟨hp, hk⟩ := underscore_split h₁ h₂ hd
  exact ⟨string_ext hp, string_ext hk⟩

theorem normalizeChannel_id (channel : RawChannel) (sourceName index : String) :
    (normalizeChannel channel sourceName index).id
      = slug sourceName ++ "_" ++ jsOr channel.nativeId index := rfl

/-- C2 counterexample: the sources "a" and "a_b" have distinct names and even distinct
slugs, and each source's keys are unique, yet the entry with native id "b_0" of source
"a" and entry 0 of source "a_b" collide on the very same id "a_b_0": the underscore
separator can occur inside source names and native ids, so the claimed cross-source
disambiguation fails. (The tagged variant prepends the same fixed "tvmux_" tag to
both, so it collides identically.) -/
theorem C2_counterexample :
    ("a" : String) ≠ "a_b"
    ∧ slug "a" ≠ slug "a_b"
    ∧ runIds collidingRun = ["a_b_0", "a_b_0"]
    ∧ ¬ (runIds collidingRun).Nodup := by decide

/-- C2 (amended): the aggregated ids of one run are pairwise distinct provided
(a) distinct sources have distinct slugs, (b) no slug contains an underscore, and
(c) within each source the per-entry keys (`channel.id || index`) are unique — the
prefix-plus-separator scheme alone does not guarantee (b), as the counterexample
shows. -/
theorem C2_id_uniqueness (run : RawRun)
    (hslug : (run.map fun src => slug src.1).Pairwise (· ≠ ·))
    (hus : ∀ src ∈ run, '_' ∉ (slug src.1).data)
    (hkeys : ∀ src ∈ run, (src.2.map fun e => jsOr e.1.nativeId e.2).Nodup) :
    (runIds run).Nodup := by
  unfold runIds
  rw [List.nodup_flatMap]
  constructor
  · intro src hsrc
    have hinj : ∀ k₁ k₂ : String,
        slug src.1 ++ "_" ++ k₁ = slug src.1 ++ "_" ++ k₂ → k₁ = k₂ := by
      intro k₁ k₂ h
      exact (id_parts_eq (hus src hsrc) (hus src hsrc) h).2
    have : (src.2.map fun e => slug src.1 ++ "_" ++ jsOr e.1.nativeId e.2).Nodup := by
      have hmap : (src.2.map fun e => slug src.1 ++ "_" ++ jsOr e.1.nativeId e.2)
          = (src.2.map fun e => jsOr e.1.nativeId e.2).map
              (fun k => slug src.1 ++ "_" ++ k) := by
        rw [List.map_map]
        rfl
      rw [hmap]
      exact (hkeys src hsrc).map (fun _ _ h => hinj _ _ h)
    simpa [normalizeChannel_id] using this
  · have hp : run.Pairwise (fun a b => slug a.1 ≠ slug b.1) :=
      List.pairwise_map.mp hslug
    refine List.Pairwise.imp_of_mem ?_ hp
    intro src₁ src₂ hm₁ hm₂ hne
    intro x hx₁ hx₂
    simp only [List.mem_map, normalizeChannel_id] at hx₁ hx₂
    obtain ⟨e₁, -, he₁⟩ := hx₁
    obtain ⟨e₂, -, he₂⟩ := hx₂
    have := id_parts_eq (hus src₁ hm₁) (hus src₂ hm₂) (he₁.trans he₂.symm)
    exact hne this.1

/-- C2 witness: two well-behaved sources (underscore-free distinct slugs, unique keys)
yield pairwise-distinct aggregated ids. -/
theorem C2_witness :
    (runIds [("Alpha", [({ nativeId := some "5" }, "0"), ({ }, "1")]),
             ("beta list", [({ }, "0")])]).Nodup :=
  C2_id_uniqueness _ (by decide) (by decide) (by decide)

/-! ### C3: the prober samples, it does not probe every stream -/

/-- C3 counterexample: with the pipeline's sample size 50, a channel carrying 51
streams has a stream that receives NO probe at all (here with the identity shuffle:
the stream with url "50" is outside the sample), refuting "every stream has received
exactly one probe"; the sample is also a single concurrently-probed slice, not a
partition into sequential batches. -/
theorem C3_counterexample :
    (flattenStreamCopies [wideChannel]).length = 51
    ∧ ((probeStreamHealth [wideChannel] (flattenStreamCopies [wideChannel])
        (fun _ => .netError) 50).1).length = 50
    ∧ ({ toStream := { url := some "50" }, channelName := "N" } : ProbeStream)
        ∈ flattenStreamCopies [wideChannel]
    ∧ ((probeStreamHealth [wideChannel] (flattenStreamCopies [wideChannel])
        (fun _ => .netError) 50).1.all fun s => s.toStream.url != some "50") = true := by
  decide

/-- C3 (amended): the prober probes exactly `min 50 n` of the `n` flattened stream
copies — a randomly shuffled sample probed as one concurrent batch. Every sampled
copy comes from the flattened list, each flattened copy is probed at most once
(duplicate-freeness is preserved), every stream is probed only in the case `n ≤ 50`,
and the master channel list is handed back unchanged. -/
theorem C3_sampling (channels : List Channel) (shuffled : List ProbeStream)
    (outcome : ProbeStream → ProbeOutcome)
    (h : shuffled.Perm (flattenStreamCopies channels)) :
    ((probeStreamHealth channels shuffled outcome 50).1).length
        = min 50 (flattenStreamCopies channels).length
    ∧ (∀ s ∈ sampleOf shuffled 50, s ∈ flattenStreamCopies channels)
    ∧ ((flattenStreamCopies channels).length ≤ 50 →
        ∀ s ∈ flattenStreamCopies channels, s ∈ sampleOf shuffled 50)
    ∧ ((flattenStreamCopies channels).Nodup → (sampleOf shuffled 50).Nodup)
    ∧ (probeStreamHealth channels shuffled outcome 50).2 = channels := by
  have hlen : shuffled.length = (flattenStreamCopies channels).length := h.length_eq
  refine ⟨?_, ?_, ?_, ?_, rfl⟩
  · show (List.map _ (sampleOf shuffled 50)).length = _
    rw [List.length_map]
    unfold sampleOf
    rw [List.length_take, hlen]
    omega
  · intro s hs
    have : s ∈ shuffled := (List.take_sublist _ _).subset hs
    exact h.mem_iff.mp this
  · intro hle s hs
    have hmin : min 50 shuffled.length = shuffled.length := by omega
    unfold sampleOf
    rw [hmin, List.take_length]
    exact h.mem_iff.mpr hs
  · intro hnd
    exact ((List.take_sublist _ _).nodup) (h.nodup_iff.mpr hnd)

/-- C3 witness: the amended description evaluated on a one-stream channel with the
identity shuffle — the single stream is within the sample and probed. -/
theorem C3_witness :
    ((probeStreamHealth [demoChannel] (flattenStreamCopies [demoChannel])
        (fun _ => .netError) 50).1).length
      = min 50 (flattenStreamCopies [demoChannel]).length
    ∧ ({ toStream := { url := some "u" }, channelName := "C" } : ProbeStream)
        ∈ sampleOf (flattenStreamCopies [demoChannel]) 50 := by
  have h := C3_sampling [demoChannel] (flattenStreamCopies [demoChannel])
    (fun _ => .netError) (List.Perm.refl _)
  exact ⟨h.1, h.2.2.1 (by decide) _ (by decide)⟩

/-! ### Case analysis of the first handler variant (shared helper) -/

/-- Complete case analysis of the variant-1 handler: empty aggregate, first write
failing, second write failing, both writes succeeding. -/
theorem v1Handler_spec (results : List SourceResult) (shuffled : List ProbeStream)
    (outcome : ProbeStream → ProbeOutcome) (ok : String → Bool) (st : CacheState) :
    (aggregateChannels results = [] →
      v1Handler results shuffled outcome ok st
        = ⟨"Failed", failedSourceAlerts results ++ ["Cache Worker"], st⟩)
    ∧ (aggregateChannels results ≠ [] → ok MASTER_CHANNEL_LIST_KEY = false →
      v1Handler results shuffled outcome ok st
        = ⟨"Failed", failedSourceAlerts results ++ ["Cache Writer"], st⟩)
    ∧ (aggregateChannels results ≠ [] → ok MASTER_CHANNEL_LIST_KEY = true →
       ok AVAILABLE_CATALOGS_KEY = false →
      (v1Handler results shuffled outcome ok st).status = "Failed"
      ∧ (v1Handler results shuffled outcome ok st).alerts
          = failedSourceAlerts results ++ ["Cache Writer"]
      ∧ (v1Handler results shuffled outcome ok st).cache MASTER_CHANNEL_LIST_KEY
          = some ⟨.channelList (aggregateChannels results), some 86400⟩
      ∧ ∀ k, k ≠ MASTER_CHANNEL_LIST_KEY →
          (v1Handler results shuffled outcome ok st).cache k = st k)
    ∧ (aggregateChannels results ≠ [] → ok MASTER_CHANNEL_LIST_KEY = true →
       ok AVAILABLE_CATALOGS_KEY = true →
      (v1Handler results shuffled outcome ok st).status = "Success"
      ∧ (v1Handler results shuffled outcome ok st).alerts = failedSourceAlerts results
      ∧ (v1Handler results shuffled outcome ok st).cache MASTER_CHANNEL_LIST_KEY
          = some ⟨.channelList (aggregateChannels results), some 86400⟩
      ∧ (v1Handler results shuffled outcome ok st).cache AVAILABLE_CATALOGS_KEY
          = some ⟨.nameList (sortStrings (availableCatalogs results)), some 86400⟩) := by
  have hkne : MASTER_CHANNEL_LIST_KEY ≠ AVAILABLE_CATALOGS_KEY := by decide
  refine ⟨?_, ?_, ?_, ?_⟩
  · intro hm
    simp [v1Handler, hm]
  · intro hm hok1
    have hne : (aggregateChannels results).isEmpty = false := by
      simpa [List.isEmpty_iff] using hm
    simp [v1Handler, hne, probeStreamHealth, setInCache, hok1]
  · intro hm hok1 hok2
    have hne : (aggregateChannels results).isEmpty = false := by
      simpa [List.isEmpty_iff] using hm
    refine ⟨?_, ?_, ?_, ?_⟩ <;>
      simp [v1Handler, hne, probeStreamHealth, setInCache, hok1, hok2]
    intro k hk
    simp [hk]
  · intro hm hok1 hok2
    have hne : (aggregateChannels results).isEmpty = false := by
      simpa [List.isEmpty_iff] using hm
    refine ⟨?_, ?_, ?_, ?_⟩ <;>
      simp [v1Handler, hne, probeStreamHealth, setInCache, hok1, hok2, hkne]

/-! ### C6: run failure conditions of the cited writer -/

/-- C6 counterexample: a run in which the master-list write succeeds and the catalog
write fails reports `Failed` — but the master-list key HAS been rewritten (the cache
held nothing, now it holds the new list), refuting "in both failure cases no published
cache state is mutated". -/
theorem C6_counterexample :
    (v1Handler demoResults (flattenStreamCopies [demoChannel]) (fun _ => .netError)
        (fun k => k != AVAILABLE_CATALOGS_KEY) (fun _ => none)).status = "Failed"
    ∧ (fun (_ : String) => (none : Option CacheEntry)) MASTER_CHANNEL_LIST_KEY = none
    ∧ (v1Handler demoResults (flattenStreamCopies [demoChannel]) (fun _ => .netError)
        (fun k => k != AVAILABLE_CATALOGS_KEY) (fun _ => none)).cache
          MASTER_CHANNEL_LIST_KEY
      = some ⟨.channelList [demoChannel], some 86400⟩ := by
  decide

/-- C6 (amended): a run reports `Failed` exactly when the aggregated list is empty or
one of the two cache writes fails, and there is no third status; both failure paths
fire their alert ("Cache Worker", resp. "Cache Writer"); the empty-list path returns
without touching ANY cache key — but on the write-failure path a key already written
before the failure stays written (the counterexample exhibits this). -/
theorem C6_failure_conditions (results : List SourceResult) (shuffled : List ProbeStream)
    (outcome : ProbeStream → ProbeOutcome) (ok : String → Bool) (st : CacheState) :
    ((v1Handler results shuffled outcome ok st).status = "Success"
      ∨ (v1Handler results shuffled outcome ok st).status = "Failed")
    ∧ ((v1Handler results shuffled outcome ok st).status = "Failed" ↔
        (aggregateChannels results = []
         ∨ ok MASTER_CHANNEL_LIST_KEY = false
         ∨ ok AVAILABLE_CATALOGS_KEY = false))
    ∧ (aggregateChannels results = [] →
        (v1Handler results shuffled outcome ok st).cache = st
        ∧ "Cache Worker" ∈ (v1Handler results shuffled outcome ok st).alerts
        ∧ (v1Handler results shuffled outcome ok st).status = "Failed")
    ∧ (aggregateChannels results ≠ [] →
        (v1Handler results shuffled outcome ok st).status = "Failed" →
        "Cache Writer" ∈ (v1Handler results shuffled outcome ok st).alerts) := by
  have hs := v1Handler_spec results shuffled outcome ok st
  by_cases hm : aggregateChannels results = []
  · have h1 := hs.1 hm
    refine ⟨Or.inr (by rw [h1]), ⟨fun _ => Or.inl hm, fun _ => by rw [h1]⟩, ?_, ?_⟩
    · intro _
      rw [h1]
      exact ⟨rfl, by simp, rfl⟩
    · intro hne _
      exact absurd hm hne
  · cases hok1 : ok MASTER_CHANNEL_LIST_KEY with
    | false =>
      have h2 := hs.2.1 hm hok1
      refine ⟨Or.inr (by rw [h2]), ⟨fun _ => Or.inr (Or.inl rfl), fun _ => by rw [h2]⟩,
        fun hc => absurd hc hm, ?_⟩
      intro _ _
      rw [h2]
      simp
    | true =>
      cases hok2 : ok AVAILABLE_CATALOGS_KEY with
      | false =>
        have h3 := hs.2.2.1 hm hok1 hok2
        refine ⟨Or.inr h3.1, ⟨fun _ => Or.inr (Or.inr rfl), fun _ => h3.1⟩,
          fun hc => absurd hc hm, ?_⟩
        intro _ _
        rw [h3.2.1]
        simp
      | true =>
        have h4 := hs.2.2.2 hm hok1 hok2
        refine ⟨Or.inl h4.1, ⟨?_, ?_⟩, fun hc => absurd hc hm, ?_⟩
        · intro hf
          rw [h4.1] at hf
          exact absurd hf (by decide)
        · intro hor
          rcases hor with h | h | h
          · exact absurd h hm
          · exact absurd h (by decide)
          · exact absurd h (by decide)
        · intro _ hf
          rw [h4.1] at hf
          exact absurd hf (by decide)

/-- C6 witness: the amended conditions evaluated on the empty-aggregate run — status
`Failed`, "Cache Worker" alerted, cache untouched. -/
theorem C6_witness :
    (v1Handler [⟨"iptv-org", .error "boom"⟩] [] (fun _ => .netError)
        (fun _ => true) (fun _ => none)).cache = (fun _ => none)
    ∧ "Cache Worker" ∈ (v1Handler [⟨"iptv-org", .error "boom"⟩] [] (fun _ => .netError)
        (fun _ => true) (fun _ => none)).alerts
    ∧ (v1Handler [⟨"iptv-org", .error "boom"⟩] [] (fun _ => .netError)
        (fun _ => true) (fun _ => none)).status = "Failed" :=
  (C6_failure_conditions [⟨"iptv-org", .error "boom"⟩] [] (fun _ => .netError)
    (fun _ => true) (fun _ => none)).2.2.1 rfl

/-! ### C7: source failure isolation -/

/-- C7: failures are isolated — a channel enters the aggregate iff some fulfilled
source produced it (one source's rejection never removes another's channels), the
alerts are exactly one per rejected source, and a Success run publishes exactly the
aggregate under the master key while keeping exactly the per-source alerts. -/
theorem C7_failure_isolation (results : List SourceResult) :
    (∀ c, c ∈ aggregateChannels results ↔
        ∃ r ∈ results, ∃ cs, r.result = .ok cs ∧ c ∈ cs)
    ∧ (∀ n, n ∈ failedSourceAlerts results ↔
        ∃ r ∈ results, r.name = n ∧ ∃ e, r.result = .error e)
    ∧ (∀ shuffled outcome ok st,
        (v1Handler results shuffled outcome ok st).status = "Success" →
          (v1Handler results shuffled outcome ok st).cache MASTER_CHANNEL_LIST_KEY
            = some ⟨.channelList (aggregateChannels results), some 86400⟩
          ∧ (v1Handler results shuffled outcome ok st).alerts
              = failedSourceAlerts results) := by
  refine ⟨?_, ?_, ?_⟩
  · intro c
    unfold aggregateChannels
    rw [List.mem_flatMap]
    constructor
    · rintro ⟨r, hr, hc⟩
      refine ⟨r, hr, ?_⟩
      cases hres : r.result with
      | ok cs =>
        rw [hres] at hc
        exact ⟨cs, rfl, hc⟩
      | error e =>
        rw [hres] at hc
        simp at hc
    · rintro ⟨r, hr, cs, hres, hc⟩
      exact ⟨r, hr, by rw [hres]; exact hc⟩
  · intro n
    unfold failedSourceAlerts
    rw [List.mem_filterMap]
    constructor
    · rintro ⟨r, hr, hn⟩
      cases hres : r.result with
      | ok cs =>
        rw [hres] at hn
        simp at hn
      | error e =>
        rw [hres] at hn
        simp at hn
        exact ⟨r, hr, hn, e, hres⟩
    · rintro ⟨r, hr, hn, e, hres⟩
      exact ⟨r, hr, by rw [hres, hn]⟩
  · intro shuffled outcome ok st hsucc
    have hs := v1Handler_spec results shuffled outcome ok st
    by_cases hm : aggregateChannels results = []
    · rw [hs.1 hm] at hsucc
      simp at hsucc
    · cases hok1 : ok MASTER_CHANNEL_LIST_KEY with
      | false =>
        rw [hs.2.1 hm hok1] at hsucc
        simp at hsucc
      | true =>
        cases hok2 : ok AVAILABLE_CATALOGS_KEY with
        | false =>
          rw [(hs.2.2.1 hm hok1 hok2).1] at hsucc
          exact absurd hsucc (by decide)
        | true =>
          have h4 := hs.2.2.2 hm hok1 hok2
          exact ⟨h4.2.2.1, h4.2.1⟩

/-- C7 witness: one rejected and one fulfilled source — the fulfilled source's channel
is aggregated and published, the rejected one is alerted, in a Success run. -/
theorem C7_witness :
    (demoCustomChannel ∈ aggregateChannels
        [⟨"iptv-org", .error "down"⟩, ⟨"My List", .ok [demoCustomChannel]⟩])
    ∧ ("iptv-org" ∈ failedSourceAlerts
        [⟨"iptv-org", .error "down"⟩, ⟨"My List", .ok [demoCustomChannel]⟩])
    ∧ ((v1Handler [⟨"iptv-org", .error "down"⟩, ⟨"My List", .ok [demoCustomChannel]⟩]
          [] (fun _ => .netError) (fun _ => true) (fun _ => none)).cache
            MASTER_CHANNEL_LIST_KEY
        = some ⟨.channelList (aggregateChannels
            [⟨"iptv-org", .error "down"⟩, ⟨"My List", .ok [demoCustomChannel]⟩]),
            some 86400⟩)
    ∧ ((v1Handler [⟨"iptv-org", .error "down"⟩, ⟨"My List", .ok [demoCustomChannel]⟩]
          [] (fun _ => .netError) (fun _ => true) (fun _ => none)).alerts
        = failedSourceAlerts
            [⟨"iptv-org", .error "down"⟩, ⟨"My List", .ok [demoCustomChannel]⟩]) := by
  have h := C7_failure_isolation
    [⟨"iptv-org", .error "down"⟩, ⟨"My List", .ok [demoCustomChannel]⟩]
  refine ⟨?_, ?_, ?_, ?_⟩
  · exact (h.1 demoCustomChannel).mpr ⟨⟨"My List", .ok [demoCustomChannel]⟩,
      List.mem_cons_of_mem _ (List.mem_cons_self _ _), [demoCustomChannel], rfl,
      List.mem_cons_self _ _⟩
  · exact (h.2.1 "iptv-org").mpr ⟨⟨"iptv-org", .error "down"⟩,
      List.mem_cons_self _ _, rfl, "down", rfl⟩
  · exact (h.2.2 [] (fun _ => .netError) (fun _ => true) (fun _ => none) (by decide)).1
  · exact (h.2.2 [] (fun _ => .netError) (fun _ => true) (fun _ => none) (by decide)).2

/-! ### C1 (counterexample part): the cited pipeline publishes unfiltered channels -/

/-- C1 counterexample: the cited handler publishes the master list UNfiltered — a run
whose only channel's only stream probe fails still reports `Success` and publishes
that channel, which has zero verified streams (indeed no health annotation at all,
since the prober wrote to spread copies). -/
theorem C1_counterexample :
    (v1Handler demoResults (flattenStreamCopies [demoChannel]) (fun _ => .netError)
        (fun _ => true) (fun _ => none)).status = "Success"
    ∧ (v1Handler demoResults (flattenStreamCopies [demoChannel]) (fun _ => .netError)
        (fun _ => true) (fun _ => none)).cache MASTER_CHANNEL_LIST_KEY
      = some ⟨.channelList [demoChannel], some 86400⟩
    ∧ (demoChannel.streams.any fun s => s.health == some "verified") = false := by
  decide

/-! ### Write-application lemmas (shared helpers) -/

theorem applyWrites_append (ok : String → Bool) (st : CacheState) (l₁ l₂ : List WriteOp) :
    applyWrites ok st (l₁ ++ l₂) = applyWrites ok (applyWrites ok st l₁) l₂ :=
  List.foldl_append _ _ _ _

theorem applyWrites_of_not_key (ok : String → Bool) (st : CacheState) (ws : List WriteOp)
    (k : String) (h : ∀ w ∈ ws, w.1 ≠ k) : applyWrites ok st ws k = st k := by
  induction ws generalizing st with
  | nil => rfl
  | cons w ws ih =>
    show applyWrites ok (applyWrite ok st w) ws k = st k
    rw [ih _ (fun w' hw' => h w' (List.mem_cons_of_mem _ hw'))]
    unfold applyWrite
    split
    · have hk : k ≠ w.1 := fun he => (h w (List.mem_cons_self _ _)) he.symm
      simp [hk]
    · rfl

theorem applyWrites_ex_none (ok : String → Bool) (st : CacheState) (ws : List WriteOp)
    (k : String) (hex : ∀ w ∈ ws, w.2.ex = none) (hok : ∀ w ∈ ws, ok w.1 = true)
    (hk : ∃ w ∈ ws, w.1 = k) : ∃ v, applyWrites ok st ws k = some ⟨v, none⟩ := by
  induction ws generalizing st with
  | nil => simp at hk
  | cons w ws ih =>
    show ∃ v, applyWrites ok (applyWrite ok st w) ws k = some ⟨v, none⟩
    by_cases hx : ∃ w' ∈ ws, w'.1 = k
    · exact ih _ (fun w' h' => hex w' (List.mem_cons_of_mem _ h'))
        (fun w' h' => hok w' (List.mem_cons_of_mem _ h')) hx
    · have hwk : w.1 = k := by
        rcases hk with ⟨w', hw', hk'⟩
        rcases List.mem_cons.mp hw' with h | h
        · exact h ▸ hk'
        · exact absurd ⟨w', h, hk'⟩ hx
      have hrest : ∀ w' ∈ ws, w'.1 ≠ k := fun w' h' he => hx ⟨w', h', he⟩
      rw [applyWrites_of_not_key ok _ ws k hrest]
      unfold applyWrite
      rw [if_pos (hok w (List.mem_cons_self _ _))]
      refine ⟨w.2.value, ?_⟩
      have hwex : w.2 = ⟨w.2.value, none⟩ := by
        have h2 := hex w (List.mem_cons_self _ _)
        cases hw2 : w.2 with
        | mk v e => simp [hw2] at h2; simp [h2]
      rw [if_pos hwk.symm, ← hwex]

/-- Evaluating a write batch ending in a write to `k` at `k` itself. -/
theorem applyWrites_last (ok : String → Bool) (st : CacheState) (ws : List WriteOp)
    (k : String) (e : CacheEntry) (hok : ok k = true) :
    applyWrites ok st (ws ++ [(k, e)]) k = some e := by
  rw [applyWrites_append]
  show applyWrite ok (applyWrites ok st ws) (k, e) k = some e
  unfold applyWrite
  rw [if_pos hok, if_pos rfl]

/-! ### Cache-key disjointness (shared helpers) -/

theorem channel_key_ne_master (a : String) : "channel_" ++ a ≠ MASTER_CHANNEL_LIST_KEY := by
  intro h
  have hd := congrArg String.data h
  rw [String.data_append] at hd
  simp only [show ("channel_").data = ['c','h','a','n','n','e','l','_'] from rfl,
    show (MASTER_CHANNEL_LIST_KEY).data
      = ['m','a','s','t','e','r','_','c','h','a','n','n','e','l','_','l','i','s','t']
      from rfl,
    List.cons_append, List.cons.injEq] at hd
  exact absurd hd.1 (by decide)

theorem channel_key_ne_avail (a : String) : "channel_" ++ a ≠ AVAILABLE_CATALOGS_KEY := by
  intro h
  have hd := congrArg String.data h
  rw [String.data_append] at hd
  simp only [show ("channel_").data = ['c','h','a','n','n','e','l','_'] from rfl,
    show (AVAILABLE_CATALOGS_KEY).data
      = ['a','v','a','i','l','a','b','l','e','_','c','a','t','a','l','o','g','s']
      from rfl,
    List.cons_append, List.cons.injEq] at hd
  exact absurd hd.1 (by decide)

theorem channel_key_ne_catalog (a b : String) : "channel_" ++ a ≠ "catalog_" ++ b := by
  intro h
  have hd := congrArg String.data h
  rw [String.data_append, String.data_append] at hd
  simp only [show ("channel_").data = ['c','h','a','n','n','e','l','_'] from rfl,
    show ("catalog_").data = ['c','a','t','a','l','o','g','_'] from rfl,
    List.cons_append, List.cons.injEq] at hd
  exact absurd hd.2.1 (by decide)

/-! ### Success analysis of the third handler variant (shared helper) -/

theorem v3Handler_success (results : List SourceResult) (outcome : Stream → ProbeOutcome)
    (ok : String → Bool) (st : CacheState)
    (h : (v3Handler results outcome ok st).status = "Success") :
    probeAndFilterStreamHealth (aggregateChannels results) outcome ≠ []
    ∧ (v3Handler results outcome ok st).cache MASTER_CHANNEL_LIST_KEY
        = some ⟨.channelList (probeAndFilterStreamHealth (aggregateChannels results) outcome),
                some 86400⟩
    ∧ (∀ c ∈ probeAndFilterStreamHealth (aggregateChannels results) outcome,
        ∃ v, (v3Handler results outcome ok st).cache ("channel_" ++ c.id)
          = some ⟨v, none⟩)
    ∧ (v3Handler results outcome ok st).cache AVAILABLE_CATALOGS_KEY
        = some ⟨.nameList (v3IndexNames results
            (probeAndFilterStreamHealth (aggregateChannels results) outcome)), some 86400⟩ := by
  set m := probeAndFilterStreamHealth (aggregateChannels results) outcome with hmdef
  cases hm : m.isEmpty with
  | true =>
    rw [show (v3Handler results outcome ok st) =
        ⟨"Failed", failedSourceAlerts results ++ ["Cache Worker"], st⟩ from by
      simp [v3Handler, ← hmdef, hm]] at h
    simp at h
  | false =>
    cases hcond : (((v3ChannelItems m).isEmpty || (v3ChannelItems m).all fun p => ok p.1)
        && (v3IndividualWrites results m).all fun w => ok w.1) with
    | false =>
      rw [show (v3Handler results outcome ok st) =
          ⟨"Failed", failedSourceAlerts results ++ ["Cache Writer"],
            applyWrites ok
              (if ((v3ChannelItems m).isEmpty || (v3ChannelItems m).all fun p => ok p.1) then
                applyWrites (fun _ => true) st
                  ((v3ChannelItems m).map fun p => (p.1, (⟨p.2, none⟩ : CacheEntry)))
              else st)
              (v3IndividualWrites results m)⟩ from by
        simp only [v3Handler, ← hmdef, hm, hcond]
        simp] at h
      simp at h
    | true =>
      obtain ⟨hmset, hall⟩ : (((v3ChannelItems m).isEmpty
            || (v3ChannelItems m).all fun p => ok p.1) = true)
          ∧ ((v3IndividualWrites results m).all fun w => ok w.1) = true := by
        simpa [Bool.and_eq_true] using hcond
      have hmne : m ≠ [] := by
        intro hc
        rw [hc] at hm
        simp at hm
      have hcache : (v3Handler results outcome ok st).cache
          = applyWrites ok
              (applyWrites (fun _ => true) st
                ((v3ChannelItems m).map fun p => (p.1, (⟨p.2, none⟩ : CacheEntry))))
              (v3IndividualWrites results m) := by
        simp only [v3Handler, ← hmdef, hm, hcond, hmset, hall]
        simp
      have hallw : ∀ w ∈ v3IndividualWrites results m, ok w.1 = true :=
        fun w hw => List.all_eq_true.mp hall w hw
      have hokM : ok MASTER_CHANNEL_LIST_KEY = true := by
        have : (MASTER_CHANNEL_LIST_KEY,
            (⟨.channelList m, some 86400⟩ : CacheEntry)) ∈ v3IndividualWrites results m := by
          unfold v3IndividualWrites
          exact List.mem_append_right _ (List.mem_cons_self _ _)
        exact hallw _ this
      have hokA : ok AVAILABLE_CATALOGS_KEY = true := by
        have : (AVAILABLE_CATALOGS_KEY,
            (⟨.nameList (v3IndexNames results m), some 86400⟩ : CacheEntry))
            ∈ v3IndividualWrites results m := by
          unfold v3IndividualWrites
          exact List.mem_append_right _
            (List.mem_cons_of_mem _ (List.mem_cons_self _ _))
        exact hallw _ this
      refine ⟨hmne, ?_, ?_, ?_⟩
      · rw [hcache]
        unfold v3IndividualWrites
        rw [show ((v3ChannelsByCatalog m).map fun p =>
              ("catalog_" ++ p.1, (⟨.channelList p.2, some 86400⟩ : CacheEntry)))
            ++ [(MASTER_CHANNEL_LIST_KEY, (⟨.channelList m, some 86400⟩ : CacheEntry)),
                (AVAILABLE_CATALOGS_KEY,
                  (⟨.nameList (v3IndexNames results m), some 86400⟩ : CacheEntry))]
            = (((v3ChannelsByCatalog m).map fun p =>
                ("catalog_" ++ p.1, (⟨.channelList p.2, some 86400⟩ : CacheEntry)))
              ++ [(MASTER_CHANNEL_LIST_KEY, (⟨.channelList m, some 86400⟩ : CacheEntry))])
              ++ [(AVAILABLE_CATALOGS_KEY,
                  (⟨.nameList (v3IndexNames results m), some 86400⟩ : CacheEntry))] from by
          simp]
        rw [applyWrites_append]
        show applyWrite ok _ _ MASTER_CHANNEL_LIST_KEY = _
        unfold applyWrite
        rw [if_pos hokA]
        rw [if_neg (by decide : ¬ MASTER_CHANNEL_LIST_KEY = AVAILABLE_CATALOGS_KEY)]
        exact applyWrites_last ok _ _ _ _ hokM
      · intro c hc
        rw [hcache]
        have hkey : ∀ w ∈ v3IndividualWrites results m, w.1 ≠ "channel_" ++ c.id := by
          intro w hw
          unfold v3IndividualWrites at hw
          rcases List.mem_append.mp hw with hw | hw
          · obtain ⟨p, -, hp⟩ := List.mem_map.mp hw
            rw [← hp]
            exact fun he => channel_key_ne_catalog c.id p.1 he.symm
          · rcases List.mem_cons.mp hw with hw | hw
            · rw [hw]
              exact fun he => channel_key_ne_master c.id he.symm
            · rcases List.mem_cons.mp hw with hw | hw
              · rw [hw]
                exact fun he => channel_key_ne_avail c.id he.symm
              · simp at hw
        rw [applyWrites_of_not_key ok _ _ _ hkey]
        apply applyWrites_ex_none
        · intro w hw
          obtain ⟨p, -, hp⟩ := List.mem_map.mp hw
          rw [← hp]
        · intro w _
          rfl
        · refine ⟨("channel_" ++ c.id, (⟨.oneChannel c, none⟩ : CacheEntry)), ?_, rfl⟩
          refine List.mem_map.mpr ⟨("channel_" ++ c.id, .oneChannel c), ?_, rfl⟩
          unfold v3ChannelItems
          exact List.mem_map.mpr ⟨c, hc, rfl⟩
      · rw [hcache]
        unfold v3IndividualWrites
        rw [show ((v3ChannelsByCatalog m).map fun p =>
              ("catalog_" ++ p.1, (⟨.channelList p.2, some 86400⟩ : CacheEntry)))
            ++ [(MASTER_CHANNEL_LIST_KEY, (⟨.channelList m, some 86400⟩ : CacheEntry)),
                (AVAILABLE_CATALOGS_KEY,
                  (⟨.nameList (v3IndexNames results m), some 86400⟩ : CacheEntry))]
            = (((v3ChannelsByCatalog m).map fun p =>
                ("catalog_" ++ p.1, (⟨.channelList p.2, some 86400⟩ : CacheEntry)))
              ++ [(MASTER_CHANNEL_LIST_KEY, (⟨.channelList m, some 86400⟩ : CacheEntry))])
              ++ [(AVAILABLE_CATALOGS_KEY,
                  (⟨.nameList (v3IndexNames results m), some 86400⟩ : CacheEntry))] from by
          simp]
        exact applyWrites_last ok _ _ _ _ hokA

/-! ### C1 (amended part): the filtering pipeline publishes only verified channels -/

/-- C1 (amended): in the pipeline that routes through `probeAndFilterStreamHealth`
(whose body is absent from the sources and is modelled from the spec; the third
handler variant imports and calls it), the master list published by a Success run is
exactly the filtered list, and every channel in it has at least one stream with
health `"verified"` — channels with zero verified streams are removed from the
published value itself, not merely hidden. The cited variant-1 pipeline instead
publishes the aggregate unfiltered (see the counterexample). -/
theorem C1_filtered_master_list (results : List SourceResult)
    (outcome : Stream → ProbeOutcome) (ok : String → Bool) (st : CacheState)
    (h : (v3Handler results outcome ok st).status = "Success") :
    (v3Handler results outcome ok st).cache MASTER_CHANNEL_LIST_KEY
      = some ⟨.channelList (probeAndFilterStreamHealth (aggregateChannels results) outcome),
              some 86400⟩
    ∧ ∀ c ∈ probeAndFilterStreamHealth (aggregateChannels results) outcome,
        ∃ s ∈ c.streams, s.health = some "verified" := by
  refine ⟨(v3Handler_success results outcome ok st h).2.1, ?_⟩
  intro c hc
  simp only [probeAndFilterStreamHealth] at hc
  have hp := (List.mem_filter.mp hc).2
  rw [List.any_eq_true] at hp
  obtain ⟨s, hs, he⟩ := hp
  exact ⟨s, hs, by simpa using he⟩

/-- C1 witness: a concrete run through the filtering pipeline — one channel whose
only stream answers 200 — succeeds, publishes the filtered list, and every published
channel has a verified stream. -/
theorem C1_witness :
    (v3Handler demoResults (fun _ => .response 200) (fun _ => true)
        (fun _ => none)).cache MASTER_CHANNEL_LIST_KEY
      = some ⟨.channelList (probeAndFilterStreamHealth (aggregateChannels demoResults)
          (fun _ => .response 200)), some 86400⟩
    ∧ ∀ c ∈ probeAndFilterStreamHealth (aggregateChannels demoResults)
        (fun _ => .response 200),
        ∃ s ∈ c.streams, s.health = some "verified" :=
  C1_filtered_master_list demoResults (fun _ => .response 200) (fun _ => true)
    (fun _ => none) (by decide)

/-! ### C10: expirations attached by the two write paths -/

/-- C10: `setInCache` attaches the 24-hour default expiration unless the caller's
options override it; `setMultipleInCache` writes every key with NO expiration; and so
in one variant-3 Success run the published keys have different lifetimes — the master
list carries `ex = 86400` while every per-channel entry carries no expiration. -/
theorem C10_expirations :
    (∀ (ok : String → Bool) (st : CacheState) (key : String) (value : CacheValue),
      ok key = true →
      setInCache ok st key value none
        = .ok fun k => if k = key then some ⟨value, some 86400⟩ else st k)
    ∧ (∀ (ok : String → Bool) (st : CacheState) (key : String) (value : CacheValue)
        (t : Nat), ok key = true →
      setInCache ok st key value (some t)
        = .ok fun k => if k = key then some ⟨value, some t⟩ else st k)
    ∧ (∀ (ok : String → Bool) (st : CacheState) (items : List (String × CacheValue)),
        items ≠ [] → (∀ p ∈ items, ok p.1 = true) →
      setMultipleInCache ok st items
        = .ok (items.foldl (fun s p => fun k => if k = p.1 then some ⟨p.2, none⟩ else s k) st))
    ∧ (∀ (results : List SourceResult) (outcome : Stream → ProbeOutcome)
        (ok : String → Bool) (st : CacheState),
        (v3Handler results outcome ok st).status = "Success" →
        (v3Handler results outcome ok st).cache MASTER_CHANNEL_LIST_KEY
          = some ⟨.channelList (probeAndFilterStreamHealth (aggregateChannels results)
              outcome), some 86400⟩
        ∧ ∀ c ∈ probeAndFilterStreamHealth (aggregateChannels results) outcome,
            ((v3Handler results outcome ok st).cache ("channel_" ++ c.id)).map
              CacheEntry.ex = some none) := by
  refine ⟨?_, ?_, ?_, ?_⟩
  · intro ok st key value h
    unfold setInCache
    rw [if_pos h]
    rfl
  · intro ok st key value t h
    unfold setInCache
    rw [if_pos h]
    rfl
  · intro ok st items hne hok
    unfold setMultipleInCache
    rw [if_neg (by simpa [List.isEmpty_iff] using hne),
      if_pos (List.all_eq_true.mpr hok)]
  · intro results outcome ok st h
    have hs := v3Handler_success results outcome ok st h
    refine ⟨hs.2.1, ?_⟩
    intro c hc
    obtain ⟨v, hv⟩ := hs.2.2.1 c hc
    rw [hv]
    rfl

/-- C10 witness: the default expiration, the batched no-expiration write, and a
concrete Success run whose master key expires while its channel key does not. -/
theorem C10_witness :
    (setInCache (fun _ => true) (fun _ => none) "k" (.nameList []) none
      = .ok fun k => if k = "k" then some ⟨.nameList [], some 86400⟩ else none)
    ∧ (setMultipleInCache (fun _ => true) (fun _ => none) [("channel_a", .nameList [])]
      = .ok ([("channel_a", CacheValue.nameList [])].foldl
          (fun s p => fun k => if k = p.1 then some ⟨p.2, none⟩ else s k) (fun _ => none)))
    ∧ ((v3Handler demoResults (fun _ => .response 200) (fun _ => true)
          (fun _ => none)).cache MASTER_CHANNEL_LIST_KEY
        = some ⟨.channelList (probeAndFilterStreamHealth (aggregateChannels demoResults)
            (fun _ => .response 200)), some 86400⟩)
    ∧ (((v3Handler demoResults (fun _ => .response 200) (fun _ => true)
          (fun _ => none)).cache ("channel_" ++ "iptv-org_1")).map CacheEntry.ex
        = some none) := by
  refine ⟨C10_expirations.1 _ _ _ _ rfl, C10_expirations.2.2.1 _ _ _ (by decide)
    (by decide), (C10_expirations.2.2.2 demoResults _ _ _ (by decide)).1, ?_⟩
  exact (C10_expirations.2.2.2 demoResults (fun _ => .response 200) (fun _ => true)
    (fun _ => none) (by decide)).2
    { demoChannel with streams := [{ url := some "u", health := some "verified" }] }
    (by decide)

/-! ### C8: the variant-2 catalog index -/

/-- The grouping of variant 2 never creates or removes keys: its key list is exactly
the initialized sorted catalog list. -/
theorem v2ChannelsByCatalog_keys (cat : List String) (m : List Channel) :
    (v2ChannelsByCatalog cat m).map Prod.fst = cat := by
  have haux : ∀ (l : List Channel) (acc : List (String × List Channel)),
      (l.foldl
        (fun acc c =>
          match v2CatalogNameOf cat c with
          | some n =>
            if n = "" then acc
            else acc.map fun p => if p.1 = n then (p.1, p.2 ++ [c]) else p
          | none => acc) acc).map Prod.fst = acc.map Prod.fst := by
    intro l
    induction l with
    | nil => intro acc; rfl
    | cons c l ih =>
      intro acc
      rw [List.foldl_cons, ih]
      cases hn : v2CatalogNameOf cat c with
      | none => rfl
      | some n =>
        by_cases hne : n = ""
        · simp [hne]
        · simp only [hne, if_false, List.map_map]
          refine List.map_congr_left ?_
          intro p _
          show ((if p.1 = n then (p.1, p.2 ++ [c]) else p)).1 = p.1
          split <;> rfl
  unfold v2ChannelsByCatalog
  rw [haux, List.map_map]
  exact List.map_id _

/-- Success analysis of the variant-2 handler (shared helper): the aggregate was
non-empty and the index key now holds the FULL sorted catalog list. -/
theorem v2Handler_success (results : List SourceResult) (shuffled : List ProbeStream)
    (outcome : ProbeStream → ProbeOutcome) (ok : String → Bool) (st : CacheState)
    (h : (v2Handler results shuffled outcome ok st).status = "Success") :
    aggregateChannels results ≠ []
    ∧ (v2Handler results shuffled outcome ok st).cache AVAILABLE_CATALOGS_KEY
        = some ⟨.nameList (sortStrings (availableCatalogs results)), some 86400⟩ := by
  cases hm : (aggregateChannels results).isEmpty with
  | true =>
    rw [show (v2Handler results shuffled outcome ok st)
        = ⟨"Failed", failedSourceAlerts results ++ ["Cache Worker"], st⟩ from by
      simp [v2Handler, hm]] at h
    simp at h
  | false =>
    have hmne : aggregateChannels results ≠ [] := by
      intro hc
      rw [hc] at hm
      simp at hm
    cases hcond : (v2Writes results (aggregateChannels results)).all (fun w => ok w.1) with
    | false =>
      rw [show (v2Handler results shuffled outcome ok st)
          = ⟨"Failed", failedSourceAlerts results ++ ["Cache Writer"],
              applyWrites ok st (v2Writes results (aggregateChannels results))⟩ from by
        simp [v2Handler, probeStreamHealth, hm, hcond]] at h
      simp at h
    | true =>
      have hcache : (v2Handler results shuffled outcome ok st).cache
          = applyWrites ok st (v2Writes results (aggregateChannels results)) := by
        simp [v2Handler, probeStreamHealth, hm, hcond]
      have hokA : ok AVAILABLE_CATALOGS_KEY = true := by
        have hmem : ((AVAILABLE_CATALOGS_KEY,
            (⟨.nameList (sortStrings (availableCatalogs results)), some 86400⟩
              : CacheEntry)) : WriteOp)
            ∈ v2Writes results (aggregateChannels results) := by
          unfold v2Writes
          exact List.mem_append_right _
            (List.mem_cons_of_mem _ (List.mem_cons_self _ _))
        exact List.all_eq_true.mp hcond _ hmem
      refine ⟨hmne, ?_⟩
      rw [hcache]
      unfold v2Writes
      rw [show v2CatalogWrites (v2ChannelsByCatalog
              (sortStrings (availableCatalogs results)) (aggregateChannels results))
            ++ [(MASTER_CHANNEL_LIST_KEY,
                  (⟨.channelList (aggregateChannels results), some 86400⟩ : CacheEntry)),
                (AVAILABLE_CATALOGS_KEY,
                  (⟨.nameList (sortStrings (availableCatalogs results)), some 86400⟩ : CacheEntry))]
          = (v2CatalogWrites (v2ChannelsByCatalog
              (sortStrings (availableCatalogs results)) (aggregateChannels results))
            ++ [(MASTER_CHANNEL_LIST_KEY,
                  (⟨.channelList (aggregateChannels results), some 86400⟩ : CacheEntry))])
            ++ [(AVAILABLE_CATALOGS_KEY,
                  (⟨.nameList (sortStrings (availableCatalogs results)), some 86400⟩ : CacheEntry))]
          from by simp]
      exact applyWrites_last ok _ _ _ _ hokA

/-- C8 counterexample: a fulfilled custom source contributing ZERO channels ("Empty")
still lands in the published catalog index of a Success variant-2 run, while its
catalog is empty (no `catalog_Empty` key is even written) — refuting "every name in
the index has at least one published channel". -/
theorem C8_counterexample :
    (v2Handler [⟨"iptv-org", .ok [demoChannel]⟩, ⟨"Empty", .ok []⟩]
        (flattenStreamCopies [demoChannel]) (fun _ => .netError)
        (fun _ => true) (fun _ => none)).status = "Success"
    ∧ (v2Handler [⟨"iptv-org", .ok [demoChannel]⟩, ⟨"Empty", .ok []⟩]
        (flattenStreamCopies [demoChannel]) (fun _ => .netError)
        (fun _ => true) (fun _ => none)).cache AVAILABLE_CATALOGS_KEY
      = some ⟨.nameList ["Empty", "US"], some 86400⟩
    ∧ (v2Handler [⟨"iptv-org", .ok [demoChannel]⟩, ⟨"Empty", .ok []⟩]
        (flattenStreamCopies [demoChannel]) (fun _ => .netError)
        (fun _ => true) (fun _ => none)).cache ("catalog_" ++ "Empty") = none
    ∧ v2ChannelsByCatalog ["Empty", "US"]
        (aggregateChannels [⟨"iptv-org", .ok [demoChannel]⟩, ⟨"Empty", .ok []⟩])
      = [("Empty", []), ("US", [demoChannel])] := by decide

/-- C8 (amended): in a Success variant-2 run, every `catalog_` entry actually written
is non-empty, and every catalog name owning at least one channel appears in the
published index; but the published index is the FULL sorted catalog list, which can
also contain names with zero channels (the counterexample exhibits a fulfilled
source with no channels). -/
theorem C8_catalog_index (results : List SourceResult) (shuffled : List ProbeStream)
    (outcome : ProbeStream → ProbeOutcome) (ok : String → Bool) (st : CacheState)
    (h : (v2Handler results shuffled outcome ok st).status = "Success") :
    (v2Handler results shuffled outcome ok st).cache AVAILABLE_CATALOGS_KEY
      = some ⟨.nameList (sortStrings (availableCatalogs results)), some 86400⟩
    ∧ (∀ w ∈ v2CatalogWrites (v2ChannelsByCatalog
          (sortStrings (availableCatalogs results)) (aggregateChannels results)),
        ∃ n cs, w = ("catalog_" ++ n, ⟨.channelList cs, some 86400⟩) ∧ cs ≠ [])
    ∧ (∀ p ∈ v2ChannelsByCatalog (sortStrings (availableCatalogs results))
          (aggregateChannels results),
        p.1 ∈ sortStrings (availableCatalogs results)) := by
  refine ⟨(v2Handler_success results shuffled outcome ok st h).2, ?_, ?_⟩
  · intro w hw
    unfold v2CatalogWrites at hw
    obtain ⟨p, -, hp⟩ := List.mem_filterMap.mp hw
    by_cases he : p.2.isEmpty
    · rw [if_pos he] at hp
      simp at hp
    · rw [if_neg he] at hp
      refine ⟨p.1, p.2, (Option.some.inj hp).symm, ?_⟩
      intro hc
      rw [hc] at he
      simp at he
  · intro p hp
    have hk := v2ChannelsByCatalog_keys (sortStrings (availableCatalogs results))
      (aggregateChannels results)
    rw [← hk]
    exact List.mem_map.mpr ⟨p, hp, rfl⟩

/-- C8 witness: a concrete Success variant-2 run — the index holds the sorted catalog
list and the non-empty catalog "US" is one of its names. -/
theorem C8_witness :
    (v2Handler demoResults [] (fun _ => .netError) (fun _ => true)
        (fun _ => none)).cache AVAILABLE_CATALOGS_KEY
      = some ⟨.nameList (sortStrings (availableCatalogs demoResults)), some 86400⟩
    ∧ ("US", [demoChannel]).1 ∈ sortStrings (availableCatalogs demoResults) := by
  have h := C8_catalog_index demoResults [] (fun _ => .netError) (fun _ => true)
    (fun _ => none) (by decide)
  exact ⟨h.1, h.2.2 ("US", [demoChannel]) (by decide)⟩

end TVMux
